import Mathlib

/-!
Verification of the `speed` PCP client library core (metrics type model, value
compatibility, unit encoding, live-update path) and of its `mmvdump` decoder.

The Go source is embedded shallowly:

* dynamically typed Go values (`interface` values) become the closed inductive
  `GoValue`; Go's 64-bit `int` is `goInt` over `Int`, `uint` is `goUint` over
  `Nat`, floats are carried as their bit patterns (no float arithmetic occurs
  in the embedded code paths);
* machine integer conversions are explicit `% 2^w` arithmetic;
* byte regions are `List Nat` (each byte read is taken `% 256`);
* the decoder's record readers return `RRes`, whose `crash` constructor models
  a Go runtime panic (an out-of-range slice index);
* fallible operations return `Option`/`Except`-style results.
-/

/-! ## Go values -/

/-- A dynamically typed Go value as passed to the `speed` metric API.
`goInt` models the 64-bit Go `int`, `goUint` the 64-bit Go `uint`;
`goFloat32`/`goFloat64` carry IEEE-754 bit patterns (the embedded code never
inspects them numerically). -/
inductive GoValue where
  | goInt (v : Int)
  | goInt32 (v : Int)
  | goInt64 (v : Int)
  | goUint (v : Nat)
  | goUint32 (v : Nat)
  | goUint64 (v : Nat)
  | goFloat32 (bits : Nat)
  | goFloat64 (bits : Nat)
  | goString (s : String)
  deriving DecidableEq, Repr

/-- Go `int32(v)` conversion of a 64-bit `int`: two's-complement truncation. -/
def int32Wrap (v : Int) : Int := (v + 2147483648) % 4294967296 - 2147483648

/-- Go `uint32(v)` conversion of a 64-bit `int`: truncation to 32 bits. -/
def uint32Wrap (v : Int) : Nat := (v % 4294967296).toNat

/-- Go `uint64(v)` conversion of a 64-bit `int`: two's-complement reinterpretation. -/
def uint64Wrap (v : Int) : Nat := (v % 18446744073709551616).toNat

/-! ## MetricType (metrics.go) -/

/-- `type MetricType int32`: an enumerated type for all valid metric types. -/
def MetricType := Int

instance : DecidableEq MetricType := inferInstanceAs (DecidableEq Int)

instance : BEq MetricType := inferInstanceAs (BEq Int)

instance : Repr MetricType := inferInstanceAs (Repr Int)

def NoSupportType : MetricType := (-1 : Int)

def Int32Type : MetricType := (0 : Int)

def Uint32Type : MetricType := (1 : Int)

def Int64Type : MetricType := (2 : Int)

def Uint64Type : MetricType := (3 : Int)

def FloatType : MetricType := (4 : Int)

def DoubleType : MetricType := (5 : Int)

def StringType : MetricType := (6 : Int)

def AggregateType : MetricType := (7 : Int)

def AggregateStaticType : MetricType := (8 : Int)

def EventType : MetricType := (9 : Int)

def HighresEventType : MetricType := (10 : Int)

def UnknownType : MetricType := (255 : Int)

/-- `MetricType.IsCompatible` from metrics.go: checks if the passed value is
compatible with the current MetricType.  The third `goInt` test embeds Go's
`uint32(v) <= math.MaxUint32` exactly (truncation, then comparison), and the
fourth embeds `int64(v) <= math.MaxInt64`. -/
def MetricType.IsCompatible (m : MetricType) (val : GoValue) : Bool :=
  match val with
  | .goInt v =>
      if v < 0 then m == Int32Type || m == Int64Type
      else if v ≤ 2147483647 then
        m == Int32Type || m == Int64Type || m == Uint32Type || m == Uint64Type
      else if v % 4294967296 ≤ 4294967295 then
        m == Int64Type || m == Uint32Type || m == Uint64Type
      else if v ≤ 9223372036854775807 then m == Int64Type || m == Uint64Type
      else false
  | .goInt32 _ => m == Int32Type
  | .goInt64 _ => m == Int64Type
  | .goUint v =>
      if v > 4294967295 then m == Uint64Type
      else m == Uint32Type || m == Uint64Type
  | .goUint32 _ => m == Uint32Type
  | .goUint64 _ => m == Uint64Type
  | _ => false

/-- A single primitive write emitted into a `bytebuffer.Buffer`.  The buffer
type itself lives outside `src`, so the buffer is modelled as the trace of
writes performed on it; an empty trace means the buffer is left unchanged. -/
inductive WriteOp where
  | wInt32 (v : Int)
  | wInt64 (v : Int)
  | wUint32 (v : Nat)
  | wUint64 (v : Nat)
  deriving DecidableEq, Repr

/-- `MetricType.WriteVal` from metrics.go: value writer for the current
MetricType, returned as the trace of buffer writes it performs. -/
def MetricType.WriteVal (m : MetricType) (val : GoValue) : List WriteOp :=
  match val with
  | .goInt v =>
      if m == Int32Type then [.wInt32 (int32Wrap v)]
      else if m == Int64Type then [.wInt64 v]
      else if m == Uint32Type then [.wUint32 (uint32Wrap v)]
      else if m == Uint64Type then [.wUint64 (uint64Wrap v)]
      else []
  | .goInt32 v => [.wInt32 v]
  | .goInt64 v => [.wInt64 v]
  | .goUint v =>
      if m == Uint32Type then [.wUint32 (v % 4294967296)]
      else if m == Uint64Type then [.wUint64 v]
      else []
  | .goUint32 v => [.wUint32 v]
  | .goUint64 v => [.wUint64 v]
  | _ => []

/-- Modelled from the spec: the narrowing function (`resolve` in the `speed`
package) is not included under `src` — only its test `TestResolve` is.  Per
the spec, on write a generic integer value is narrowed by the target type;
the test table fixes the narrowing of `int` and `uint` by each numeric type. -/
def MetricType.resolve (m : MetricType) (val : GoValue) : GoValue :=
  match val with
  | .goInt v =>
      if m == Int32Type then .goInt32 (int32Wrap v)
      else if m == Int64Type then .goInt64 v
      else if m == Uint32Type then .goUint32 (uint32Wrap v)
      else if m == Uint64Type then .goUint64 (uint64Wrap v)
      else val
  | .goUint v =>
      if m == Uint32Type then .goUint32 (v % 4294967296)
      else if m == Uint64Type then .goUint64 v
      else val
  | v => v

/-! ## Units (metrics.go) -/

/-- `SpaceUnit`: enumerated space units, `ByteUnit SpaceUnit = 1<<28 | iota<<16`. -/
inductive SpaceUnit where
  | ByteUnit
  | KilobyteUnit
  | MegabyteUnit
  | GigabyteUnit
  | TerabyteUnit
  | PetabyteUnit
  | ExabyteUnit
  deriving DecidableEq, Repr

/-- The `iota` index of a `SpaceUnit` constant. -/
def SpaceUnit.scale : SpaceUnit → Nat
  | .ByteUnit => 0
  | .KilobyteUnit => 1
  | .MegabyteUnit => 2
  | .GigabyteUnit => 3
  | .TerabyteUnit => 4
  | .PetabyteUnit => 5
  | .ExabyteUnit => 6

/-- `SpaceUnit.PMAPI`: the 32-bit PMAPI word, `1<<28 | iota<<16`. -/
def SpaceUnit.PMAPI (s : SpaceUnit) : Nat := (1 <<< 28) ||| (s.scale <<< 16)

/-- `TimeUnit`: enumerated time units, `NanosecondUnit TimeUnit = 1<<24 | iota<<12`. -/
inductive TimeUnit where
  | NanosecondUnit
  | MicrosecondUnit
  | MillisecondUnit
  | SecondUnit
  | MinuteUnit
  | HourUnit
  deriving DecidableEq, Repr

/-- The `iota` index of a `TimeUnit` constant. -/
def TimeUnit.scale : TimeUnit → Nat
  | .NanosecondUnit => 0
  | .MicrosecondUnit => 1
  | .MillisecondUnit => 2
  | .SecondUnit => 3
  | .MinuteUnit => 4
  | .HourUnit => 5

/-- `TimeUnit.PMAPI`: the 32-bit PMAPI word, `1<<24 | iota<<12`. -/
def TimeUnit.PMAPI (t : TimeUnit) : Nat := (1 <<< 24) ||| (t.scale <<< 12)

/-- `CountUnit`: `OneUnit CountUnit = 1<<20 | iota<<8` is the only count unit. -/
inductive CountUnit where
  | OneUnit
  deriving DecidableEq, Repr

/-- The `iota` index of a `CountUnit` constant. -/
def CountUnit.scale : CountUnit → Nat
  | .OneUnit => 0

/-- `CountUnit.PMAPI`: the 32-bit PMAPI word, `1<<20 | iota<<8`. -/
def CountUnit.PMAPI (c : CountUnit) : Nat := (1 <<< 20) ||| (c.scale <<< 8)

/-! ## PCPMetric (metrics.go)

The embedded state keeps the fields the live-update path touches: the stored
dynamic value and the metric type.  Metadata (name, unit, semantics,
descriptions, offsets) is not read or written by `Set`/`Val` and is omitted. -/

/-- The mutable core of a `PCPMetric`: its stored value and its `MetricType`. -/
structure PCPMetric where
  val : GoValue
  t : MetricType
  deriving DecidableEq

/-- `PCPMetric.Val` from metrics.go: returns the current Set value. -/
def PCPMetric.Val (m : PCPMetric) : GoValue := m.val

/-- `PCPMetric.Set` from metrics.go: validates compatibility, then stores the
value only when it differs from the current one.  Returns the error (if any)
together with the state after the call. -/
def PCPMetric.Set (m : PCPMetric) (val : GoValue) : Option String × PCPMetric :=
  if ! MetricType.IsCompatible m.t val then
    (some "the value is incompatible with this metrics MetricType", m)
  else if val ≠ m.val then (none, { m with val := val })
  else (none, m)

/-- `NewPCPMetric` from metrics.go, restricted to the value/type core: fails
when the passed MetricType and value are incompatible. -/
def NewPCPMetric (val : GoValue) (t : MetricType) : Option PCPMetric :=
  if MetricType.IsCompatible t val then some { val := val, t := t } else none

/-! ## mmvdump decoder

The `mmvdump` package's struct declarations and length constants are not under
`src` (only `mmvdump.go` is), so the record layout is modelled from the spec
(its §4.G fixed record sizes and header field list); the reader functions
themselves are embedded from `mmvdump.go`. -/

/-- `2^64`, the modulus of Go's `uint64` arithmetic. -/
def U64 : Nat := 18446744073709551616

/-- Result of a decoder step: a value, a Go `error`, a Go runtime panic
(`crash`: an out-of-range slice index, `make` with a negative length, or
`wg.Add` with a negative delta), or a deadlock (`hang`: a `wg.Wait` whose
counter can never reach zero, so the call never returns).  The record readers
only ever produce the first three; `hang` arises at the `readComponents`
level. -/
inductive RRes (α : Type) where
  | ok (a : α)
  | err (msg : String)
  | crash
  | hang
  deriving DecidableEq, Repr

/-- Whether a result is `ok`. -/
def RRes.isOk {α : Type} : RRes α → Bool
  | .ok _ => true
  | _ => false

/-- Whether a result is `err`. -/
def RRes.isErr {α : Type} : RRes α → Bool
  | .err _ => true
  | _ => false

/-- Modelled from the spec: byte read from a region; Go bytes are 8-bit, so
every read is reduced `% 256` (reads are always bounds-checked before use). -/
def byteAt (data : List Nat) (i : Nat) : Nat := data.getD i 0 % 256

/-- A little-endian 32-bit word at offset `off`. -/
def le32 (data : List Nat) (off : Nat) : Nat :=
  byteAt data off + byteAt data (off + 1) * 256 + byteAt data (off + 2) * 65536 +
    byteAt data (off + 3) * 16777216

/-- A little-endian 64-bit word at offset `off`. -/
def le64 (data : List Nat) (off : Nat) : Nat :=
  le32 data off + le32 data (off + 4) * 4294967296

/-- The `stride` bytes of the region starting at `offset` (the record a Go
struct pointer into the slice exposes). -/
def sliceAt (data : List Nat) (offset stride : Nat) : List Nat :=
  (data.drop offset).take stride

/-- Modelled from the spec: header length — magic+version, G1, G2, toc count,
flags, process id, cluster id (40 bytes). -/
def HeaderLength : Nat := 40

/-- Modelled from the spec: a TOC entry is three words, type, count, offset (16 bytes). -/
def TocLength : Nat := 16

/-- Modelled from the spec: an instance record is 80 bytes. -/
def InstanceLength : Nat := 80

/-- Modelled from the spec: an instance-domain record is 32 bytes. -/
def InstanceDomainLength : Nat := 32

/-- Modelled from the spec: a metric record is 104 bytes. -/
def MetricLength : Nat := 104

/-- Modelled from the spec: a value cell is a 16-byte record. -/
def ValueLength : Nat := 16

/-- Modelled from the spec: a string slot is 256 bytes. -/
def StringLength : Nat := 256

/-- Modelled from the spec: the decoded `Header` struct — magic "MMV" plus a
version byte, the generation words G1 and G2, the TOC entry count, flags,
process id and cluster id. -/
structure Header where
  magic : List Nat
  version : Nat
  g1 : Nat
  g2 : Nat
  toc : Nat
  flag : Nat
  process : Nat
  cluster : Nat
  deriving DecidableEq, Repr

/-- The bytes of the string "MMV". -/
def mmvMagic : List Nat := [77, 77, 86]

/-- Reinterpretation of the first `HeaderLength` bytes as a `Header`
(little-endian, fields in declaration order). -/
def parseHeader (data : List Nat) : Header :=
  { magic := [byteAt data 0, byteAt data 1, byteAt data 2, byteAt data 3]
    version := le32 data 4
    g1 := le64 data 8
    g2 := le64 data 16
    toc := le32 data 24
    flag := le32 data 28
    process := le32 data 32
    cluster := le32 data 36 }

/-- `readHeader` from mmvdump.go: length check, magic check (first three magic
bytes against "MMV"), then `G1 != G2` check.  No version check and no
nonzero-generation check are performed. -/
def readHeader (data : List Nat) : RRes Header :=
  if data.length < HeaderLength then
    .err "file too small to contain a valid Header"
  else
    let header := parseHeader data
    if header.magic.take 3 ≠ mmvMagic then .err "Bad Magic"
    else if header.g1 ≠ header.g2 then .err "Mismatched version numbers"
    else .ok header

/-- The decoded `Toc` struct: type, count, offset.  `count` is kept as the raw
32-bit word; `ty` likewise. -/
structure Toc where
  ty : Nat
  count : Nat
  offset : Nat
  deriving DecidableEq, Repr

/-- Reinterpretation of the `TocLength` bytes at `offset` as a `Toc`. -/
def parseToc (data : List Nat) (offset : Nat) : Toc :=
  { ty := le32 data offset
    count := le32 data (offset + 4)
    offset := le64 data (offset + 8) }

/-- `readToc` from mmvdump.go.  The bound check adds `offset + TocLength` in
wrapping `uint64` arithmetic, exactly as Go does; if the check passes but
`offset` is outside the slice, taking `&data[offset]` panics. -/
def readToc (data : List Nat) (offset : Nat) : RRes Toc :=
  if data.length < (offset + TocLength) % U64 then
    .err "Incomplete/Partially Written TOC"
  else if offset < data.length then .ok (parseToc data offset)
  else .crash

/-- The shared shape of the five fixed-stride record readers of mmvdump.go:
bound check in wrapping `uint64` arithmetic, then the record bytes (or a panic
when the wrapped check let an out-of-range offset through). -/
def readRecordAt (stride : Nat) (msg : String) (data : List Nat) (offset : Nat) :
    RRes (List Nat) :=
  if data.length < (offset + stride) % U64 then .err msg
  else if offset < data.length then .ok (sliceAt data offset stride)
  else .crash

/-- `readInstance` from mmvdump.go. -/
def readInstance (data : List Nat) (offset : Nat) : RRes (List Nat) :=
  readRecordAt InstanceLength "Incomplete/Partially Written Instance" data offset

/-- `readInstanceDomain` from mmvdump.go. -/
def readInstanceDomain (data : List Nat) (offset : Nat) : RRes (List Nat) :=
  readRecordAt InstanceDomainLength "Incomplete/Partially Written InstanceDomain" data offset

/-- `readMetric` from mmvdump.go. -/
def readMetric (data : List Nat) (offset : Nat) : RRes (List Nat) :=
  readRecordAt MetricLength "Incomplete/Partially Written Metric" data offset

/-- `readValue` from mmvdump.go. -/
def readValue (data : List Nat) (offset : Nat) : RRes (List Nat) :=
  readRecordAt ValueLength "Incomplete/Partially Written Value" data offset

/-- `readString` from mmvdump.go. -/
def readString (data : List Nat) (offset : Nat) : RRes (List Nat) :=
  readRecordAt StringLength "Incomplete/Partially Written String" data offset

/-- `readTocs` from mmvdump.go, as a recursion over the remaining count; the
`i`-th entry is read at `HeaderLength + i*TocLength`.  The first failing entry
aborts the walk, as in the source. -/
def readTocsAux (data : List Nat) : Nat → Nat → RRes (List Toc)
  | _, 0 => .ok []
  | offset, count + 1 =>
      match readToc data offset with
      | .ok t =>
          match readTocsAux data (offset + TocLength) count with
          | .ok ts => .ok (t :: ts)
          | .err e => .err e
          | .crash => .crash
          | .hang => .hang
      | .err e => .err e
      | .crash => .crash
      | .hang => .hang

/-- `readTocs` from mmvdump.go, taking the raw 32-bit count word: its very
first step, `make([]*Toc, count)`, panics when the word is a negative `int32`
(sign bit set); the walk itself runs only for nonnegative counts. -/
def readTocs (data : List Nat) (count : Nat) : RRes (List Toc) :=
  if 2147483648 ≤ count then .crash
  else readTocsAux data HeaderLength count

/-- A decoded section: records keyed by their byte offset, in walk order
(the Go maps `map[uint64]*Instance` etc.). -/
abbrev RecList := List (Nat × List Nat)

/-- The per-record walk shared by `readInstances`, `readInstanceDomains`,
`readMetrics`, `readValues` and `readStrings` of mmvdump.go: `count` records
at `offset` with the section's fixed stride, the offset advancing in wrapping
`uint64` arithmetic.  The per-record goroutines of the source are sequenced in
index order; a failing record yields the section's error (`nil` map), exactly
the observable outcome of the source's shared `err` variable. -/
def readRecords (reader : List Nat → Nat → RRes (List Nat)) (stride : Nat)
    (data : List Nat) : Nat → Nat → RRes RecList
  | _, 0 => .ok []
  | offset, count + 1 =>
      match reader data offset with
      | .ok rec =>
          match readRecords reader stride data ((offset + stride) % U64) count with
          | .ok rest => .ok ((offset, rec) :: rest)
          | .err e => .err e
          | .crash => .crash
          | .hang => .hang
      | .err e => .err e
      | .crash => .crash
      | .hang => .hang

/-- `readInstances` from mmvdump.go, taking the raw 32-bit count word: its very
first step, `wg.Add(int(count))`, panics when the word is a negative `int32`
(sign bit set); the walk itself runs only for nonnegative counts. -/
def readInstances (data : List Nat) (offset count : Nat) : RRes RecList :=
  if 2147483648 ≤ count then .crash
  else readRecords readInstance InstanceLength data offset count

/-- `readInstanceDomains` from mmvdump.go, taking the raw 32-bit count word: its very
first step, `wg.Add(int(count))`, panics when the word is a negative `int32`
(sign bit set); the walk itself runs only for nonnegative counts. -/
def readInstanceDomains (data : List Nat) (offset count : Nat) : RRes RecList :=
  if 2147483648 ≤ count then .crash
  else readRecords readInstanceDomain InstanceDomainLength data offset count

/-- `readMetrics` from mmvdump.go, taking the raw 32-bit count word: its very
first step, `wg.Add(int(count))`, panics when the word is a negative `int32`
(sign bit set); the walk itself runs only for nonnegative counts. -/
def readMetrics (data : List Nat) (offset count : Nat) : RRes RecList :=
  if 2147483648 ≤ count then .crash
  else readRecords readMetric MetricLength data offset count

/-- `readValues` from mmvdump.go, taking the raw 32-bit count word: its very
first step, `wg.Add(int(count))`, panics when the word is a negative `int32`
(sign bit set); the walk itself runs only for nonnegative counts. -/
def readValues (data : List Nat) (offset count : Nat) : RRes RecList :=
  if 2147483648 ≤ count then .crash
  else readRecords readValue ValueLength data offset count

/-- `readStrings` from mmvdump.go, taking the raw 32-bit count word: its very
first step, `wg.Add(int(count))`, panics when the word is a negative `int32`
(sign bit set); the walk itself runs only for nonnegative counts. -/
def readStrings (data : List Nat) (offset count : Nat) : RRes RecList :=
  if 2147483648 ≤ count then .crash
  else readRecords readString StringLength data offset count

/-- TOC type tags (mmvdump constants, fixed by the spec):
Indoms=1, Instances=2, Metrics=3, Values=4, Strings=5. -/
def TocIndoms : Nat := 1

/-- TOC type tag for the instances section. -/
def TocInstances : Nat := 2

/-- TOC type tag for the metrics section. -/
def TocMetrics : Nat := 3

/-- TOC type tag for the values section. -/
def TocValues : Nat := 4

/-- TOC type tag for the strings section. -/
def TocStrings : Nat := 5

/-- The five result slots of `readComponents`: each is `none` until the
goroutine for a TOC entry of that section type assigns it. -/
structure Components where
  metrics : Option (RRes RecList) := none
  values : Option (RRes RecList) := none
  instances : Option (RRes RecList) := none
  indoms : Option (RRes RecList) := none
  strings : Option (RRes RecList) := none
  deriving DecidableEq, Repr

/-- The all-`none` initial state of the `readComponents` result slots. -/
def initComponents : Components := {}

/-- One `readComponents` goroutine: the switch on `toc.Type` assigns the slot
for the entry's section (both the map and the error are written together).
An entry whose type matches no case leaves the slots alone; that its goroutine
also never calls `wg.Done` — deadlocking `wg.Wait` — is accounted for by
`tocHandled` in `componentsResult` and `readComponentsResult`, not here. -/
def applyToc (data : List Nat) (s : Components) (t : Toc) : Components :=
  if t.ty = TocInstances then
    { s with instances := some (readInstances data t.offset t.count) }
  else if t.ty = TocIndoms then
    { s with indoms := some (readInstanceDomains data t.offset t.count) }
  else if t.ty = TocMetrics then
    { s with metrics := some (readMetrics data t.offset t.count) }
  else if t.ty = TocValues then
    { s with values := some (readValues data t.offset t.count) }
  else if t.ty = TocStrings then
    { s with strings := some (readStrings data t.offset t.count) }
  else s

/-- `readComponents` decoded sequentially, in TOC order — the reference
semantics the spec requires of any parallel execution. -/
def readComponentsSeq (data : List Nat) (tocs : List Toc) : Components :=
  tocs.foldl (applyToc data) initComponents

/-- `readComponents` under an explicit goroutine schedule: `sched` lists the
indices of the TOC entries in the order in which their goroutines' slot
assignments land.  A later assignment to the same slot overwrites an earlier
one, as for the shared variables of the source. -/
def readComponentsWith (data : List Nat) (tocs : List Toc) (sched : List Nat) :
    Components :=
  (sched.filterMap (fun i => tocs[i]?)).foldl (applyToc data) initComponents

/-- The results a parallel run of `readComponents` can produce: one outcome
per completion order (permutation of the TOC entry indices). -/
def IsParallelOutcome (data : List Nat) (tocs : List Toc) (s : Components) : Prop :=
  ∃ sched : List Nat, sched.Perm (List.range tocs.length) ∧
    s = readComponentsWith data tocs sched

/-- The full result of `Dump`. -/
structure DumpResult where
  header : Header
  tocs : List Toc
  comps : Components
  deriving DecidableEq, Repr

/-- Whether a slot holds a panicked section walk. -/
def slotCrashed : Option (RRes RecList) → Bool
  | some .crash => true
  | _ => false

/-- The error a slot holds, if any. -/
def slotErr : Option (RRes RecList) → Option String
  | some (.err e) => some e
  | _ => none

/-- Whether any `readComponents` slot panicked. -/
def anyCrash (s : Components) : Bool :=
  slotCrashed s.instances || slotCrashed s.indoms || slotCrashed s.metrics ||
    slotCrashed s.values || slotCrashed s.strings

/-- Whether a TOC entry's type matches one of the five cases of the
`readComponents` switch.  `readComponents` does `wg.Add(len(tocs))`, but an
unmatched entry starts no goroutine, so `wg.Done` is never called for it and
`wg.Wait` blocks forever. -/
def tocHandled (t : Toc) : Bool :=
  t.ty == TocInstances || t.ty == TocIndoms || t.ty == TocMetrics ||
    t.ty == TocValues || t.ty == TocStrings

/-- The tail of `Dump` from mmvdump.go: a panic in any section goroutine
crashes the process; a TOC entry of unmatched type deadlocks `wg.Wait`, so
`Dump` never returns; otherwise the section errors are surfaced in the
source's order (instances, indoms, metrics, values, strings). -/
def componentsResult (h : Header) (tocs : List Toc) (s : Components) :
    RRes DumpResult :=
  if anyCrash s then .crash
  else if tocs.all tocHandled then
    match slotErr s.instances with
    | some e => .err e
    | none =>
        match slotErr s.indoms with
        | some e => .err e
        | none =>
            match slotErr s.metrics with
            | some e => .err e
            | none =>
                match slotErr s.values with
                | some e => .err e
                | none =>
                    match slotErr s.strings with
                    | some e => .err e
                    | none => .ok { header := h, tocs := tocs, comps := s }
  else .hang

/-- The observable outcome of the parallel `readComponents` under a goroutine
completion order: a panic in any goroutine (`wg.Add` on a negative count word,
or an out-of-range index let through by a wrapped bound check) crashes the
process; an unmatched TOC entry type deadlocks `wg.Wait`; otherwise the call
returns its five slots (per-section errors stay inside the slots, as in the
source's five error returns). -/
def readComponentsResult (data : List Nat) (tocs : List Toc) (sched : List Nat) :
    RRes Components :=
  if anyCrash (readComponentsWith data tocs sched) then .crash
  else if tocs.all tocHandled then .ok (readComponentsWith data tocs sched)
  else .hang

/-- The sequential reference the spec measures the parallel decode against:
decoding the TOC entries in order with a plain loop (no WaitGroup) — panics
in a section walk propagate, unmatched entry types are skipped, and the five
slots are returned. -/
def readComponentsSeqResult (data : List Nat) (tocs : List Toc) : RRes Components :=
  if anyCrash (readComponentsSeq data tocs) then .crash
  else .ok (readComponentsSeq data tocs)

/-- `Dump` from mmvdump.go under an explicit goroutine schedule for its
`readComponents` call: header, then TOC walk, then the components. -/
def DumpWith (data : List Nat) (sched : List Nat) : RRes DumpResult :=
  match readHeader data with
  | .err e => .err e
  | .crash => .crash
  | .hang => .hang
  | .ok h =>
      match readTocs data h.toc with
      | .err e => .err e
      | .crash => .crash
      | .hang => .hang
      | .ok tocs => componentsResult h tocs (readComponentsWith data tocs sched)

/-- The G1 generation word of a successful dump. -/
def dumpG1 : RRes DumpResult → Option Nat
  | .ok r => some r.header.g1
  | _ => none

/-- The G2 generation word of a successful dump. -/
def dumpG2 : RRes DumpResult → Option Nat
  | .ok r => some r.header.g2
  | _ => none

/-- The three magic bytes of a successful dump's header. -/
def dumpMagic : RRes DumpResult → Option (List Nat)
  | .ok r => some (r.header.magic.take 3)
  | _ => none

/-- The version word of a successful dump's header. -/
def dumpVersion : RRes DumpResult → Option Nat
  | .ok r => some r.header.version
  | _ => none

/-! ## Claim theorems -/

/-- C2: the claim says `IsCompatible(t, v)` for a Go `int` accepts exactly the
values in the target's range.  The code diverges: Go's
`uint32(v) <= math.MaxUint32` guard is a tautology after truncation, so
`Uint32Type` accepts `2^32` (out of `uint32` range), and every negative value
is accepted by `Int32Type` regardless of magnitude.  This theorem evaluates
the embedded code at both failing inputs. -/
theorem c2_iscompatible_out_of_range :
    MetricType.IsCompatible Uint32Type (GoValue.goInt 4294967296) = true
  ∧ (4294967295 : Int) < 4294967296
  ∧ MetricType.IsCompatible Int32Type (GoValue.goInt (-2147483649)) = true
  ∧ (-2147483649 : Int) < -2147483648 := by decide

/-- C6: the claim (and the repository's own `TestIsCompatible`) say
`IsCompatible(StringType, s)` is true for every string `s`; the embedded
switch has no string case, so it falls to `default: return false`.  The second
conjunct records that the claim's other half (every non-String type rejects
strings) does hold. -/
theorem c6_string_rejected :
    MetricType.IsCompatible StringType (GoValue.goString "10") = false
  ∧ (∀ (m : MetricType) (s : String),
      MetricType.IsCompatible m (GoValue.goString s) = false) :=
  ⟨rfl, fun _ _ => rfl⟩

/-- C7: every concrete unit's PMAPI word is its dimension bit (28 for space,
24 for time, 20 for count) plus its scale placed in the corresponding 4-bit
field (16, 12 and 8 respectively), all other bits zero — stated by the exact
sum decomposition with the scale below 16 — together with the claim's four
example equalities. -/
theorem c7_unit_encoding :
    (∀ s : SpaceUnit, s.PMAPI = (1 <<< 28) + s.scale * (1 <<< 16) ∧ s.scale < 16)
  ∧ (∀ t : TimeUnit, t.PMAPI = (1 <<< 24) + t.scale * (1 <<< 12) ∧ t.scale < 16)
  ∧ (∀ c : CountUnit, c.PMAPI = (1 <<< 20) + c.scale * (1 <<< 8) ∧ c.scale < 16)
  ∧ SpaceUnit.ByteUnit.PMAPI = 1 <<< 28
  ∧ SpaceUnit.KilobyteUnit.PMAPI = (1 <<< 28) ||| (1 <<< 16)
  ∧ TimeUnit.NanosecondUnit.PMAPI = 1 <<< 24
  ∧ CountUnit.OneUnit.PMAPI = 1 <<< 20 := by
  refine ⟨fun s => ?_, fun t => ?_, fun c => ?_, by decide, by decide, by decide, by decide⟩
  · cases s <;> exact ⟨by decide, by decide⟩
  · cases t <;> exact ⟨by decide, by decide⟩
  · cases c <;> exact ⟨by decide, by decide⟩

/-- C10: `WriteVal` performs no buffer write (and reports nothing — it has no
error return) when the value's dynamic type is not one of the six integer
types, when an `int` meets a target type outside
`{Int32Type, Int64Type, Uint32Type, Uint64Type}`, and when a `uint` meets a
target type outside `{Uint32Type, Uint64Type}`. -/
theorem c10_writeval_no_op :
    (∀ (m : MetricType) (s : String), MetricType.WriteVal m (GoValue.goString s) = [])
  ∧ (∀ (m : MetricType) (b : Nat), MetricType.WriteVal m (GoValue.goFloat32 b) = [])
  ∧ (∀ (m : MetricType) (b : Nat), MetricType.WriteVal m (GoValue.goFloat64 b) = [])
  ∧ (∀ (m : MetricType) (i : Int), m ≠ Int32Type → m ≠ Int64Type →
      m ≠ Uint32Type → m ≠ Uint64Type → MetricType.WriteVal m (GoValue.goInt i) = [])
  ∧ (∀ (m : MetricType) (n : Nat), m ≠ Uint32Type → m ≠ Uint64Type →
      MetricType.WriteVal m (GoValue.goUint n) = []) := by
  refine ⟨fun _ _ => rfl, fun _ _ => rfl, fun _ _ => rfl, ?_, ?_⟩
  · intro m i h1 h2 h3 h4
    simp [MetricType.WriteVal, beq_iff_eq, h1, h2, h3, h4]
  · intro m n h1 h2
    simp [MetricType.WriteVal, beq_iff_eq, h1, h2]

/-- C10 witness: the no-op cases evaluated at concrete inputs via the claim
theorem. -/
theorem c10_writeval_no_op_witness :
    MetricType.WriteVal StringType (GoValue.goInt 5) = []
  ∧ MetricType.WriteVal Int32Type (GoValue.goUint 5) = [] :=
  ⟨c10_writeval_no_op.2.2.2.1 StringType 5 (by decide) (by decide) (by decide) (by decide),
   c10_writeval_no_op.2.2.2.2 Int32Type 5 (by decide) (by decide)⟩

/-- C5: `Set` returns an error exactly when the value is incompatible with the
metric's type, and a failed `Set` leaves the metric state (hence the next
`Val`) unchanged. -/
theorem c5_set_error_iff :
    ∀ (m : PCPMetric) (v : GoValue),
      (((m.Set v).1 ≠ none) ↔ MetricType.IsCompatible m.t v = false)
    ∧ ((m.Set v).1 ≠ none → (m.Set v).2 = m) := by
  intro m v
  by_cases h : MetricType.IsCompatible m.t v
  · constructor
    · simp only [PCPMetric.Set, h, Bool.not_true, Bool.false_eq_true, if_false]
      constructor
      · intro hne
        exfalso
        rcases em (v = m.val) with hv | hv <;> simp [hv] at hne
      · intro hfalse
        simp [h] at hfalse
    · intro hne
      exfalso
      simp only [PCPMetric.Set, h, Bool.not_true, Bool.false_eq_true, if_false] at hne
      rcases em (v = m.val) with hv | hv <;> simp [hv] at hne
  · have hf : MetricType.IsCompatible m.t v = false := by
      simpa using h
    constructor
    · simp [PCPMetric.Set, hf]
    · intro _
      simp [PCPMetric.Set, hf]

/-- C5 witness: a concrete incompatible `Set` (an `int` on a String-typed
metric) errs and leaves the state unchanged. -/
theorem c5_set_error_iff_witness :
    (((⟨GoValue.goString "a", StringType⟩ : PCPMetric).Set (GoValue.goInt 5)).1 ≠ none)
  ∧ ((⟨GoValue.goString "a", StringType⟩ : PCPMetric).Set (GoValue.goInt 5)).2 =
      (⟨GoValue.goString "a", StringType⟩ : PCPMetric) := by
  have h := c5_set_error_iff ⟨GoValue.goString "a", StringType⟩ (GoValue.goInt 5)
  have he := h.1.mpr (by decide)
  exact ⟨he, h.2 he⟩

/-- C9: a compatible `Set` of the currently stored value returns `nil` and
leaves the state untouched, and `Set` is idempotent — after one successful
`Set(M, v)`, a second `Set(M, v)` returns `nil` and changes nothing. -/
theorem c9_set_idempotent :
    ∀ (m : PCPMetric) (v : GoValue), MetricType.IsCompatible m.t v = true →
      (m.val = v → m.Set v = (none, m))
    ∧ (∀ m', m.Set v = (none, m') → m'.Set v = (none, m')) := by
  intro m v hc
  constructor
  · intro hv
    simp [PCPMetric.Set, hc, hv]
  · intro m' hm'
    rcases em (v = m.val) with hv | hv
    · subst hv
      have hset : m.Set m.val = (none, m) := by simp [PCPMetric.Set, hc]
      rw [hset] at hm'
      have hm2 : m = m' := congrArg Prod.snd hm'
      subst hm2
      exact hset
    · have hset : m.Set v = (none, { m with val := v }) := by
        simp [PCPMetric.Set, hc, hv]
      rw [hset] at hm'
      have hm2 : ({ m with val := v } : PCPMetric) = m' := congrArg Prod.snd hm'
      subst hm2
      simp [PCPMetric.Set, hc]

/-- C9 witness: setting an `Int32Type` metric to its current value returns
`nil` and leaves the state identical. -/
theorem c9_set_idempotent_witness :
    (⟨GoValue.goInt 5, Int32Type⟩ : PCPMetric).Set (GoValue.goInt 5) =
      (none, ⟨GoValue.goInt 5, Int32Type⟩) :=
  (c9_set_idempotent ⟨GoValue.goInt 5, Int32Type⟩ (GoValue.goInt 5) (by decide)).1 rfl

/-- C4 counterexample: the claim says `Val` returns `v` after narrowing by the
metric's type; on an `Int32Type` metric, `Set` with the generic integer 7
succeeds but `Val` returns the generic integer 7 itself, which is distinct
from the narrowed value `int32(7)`. -/
theorem c4_counterexample :
    ((⟨GoValue.goInt 0, Int32Type⟩ : PCPMetric).Set (GoValue.goInt 7)).1 = none
  ∧ ((⟨GoValue.goInt 0, Int32Type⟩ : PCPMetric).Set (GoValue.goInt 7)).2.Val =
      GoValue.goInt 7
  ∧ MetricType.resolve Int32Type (GoValue.goInt 7) = GoValue.goInt32 7
  ∧ GoValue.goInt 7 ≠ GoValue.goInt32 7 := by decide

/-- C4 (amended): for every metric and compatible value, `Set` returns `nil`
and a subsequent `Val` returns exactly the value passed — the stored value is
not narrowed. -/
theorem c4_set_then_val :
    ∀ (m : PCPMetric) (v : GoValue), MetricType.IsCompatible m.t v = true →
      (m.Set v).1 = none ∧ ((m.Set v).2).Val = v := by
  intro m v hc
  rcases em (v = m.val) with hv | hv
  · subst hv
    simp [PCPMetric.Set, PCPMetric.Val, hc]
  · simp [PCPMetric.Set, PCPMetric.Val, hc, hv]

/-- C4 witness: the amended claim evaluated on an `Int32Type` metric and the
generic integer 7. -/
theorem c4_set_then_val_witness :
    MetricType.IsCompatible Int32Type (GoValue.goInt 7) = true
  ∧ (((⟨GoValue.goInt 0, Int32Type⟩ : PCPMetric).Set (GoValue.goInt 7)).1 = none
  ∧ (((⟨GoValue.goInt 0, Int32Type⟩ : PCPMetric).Set (GoValue.goInt 7)).2).Val =
      GoValue.goInt 7) :=
  ⟨by decide, c4_set_then_val ⟨GoValue.goInt 0, Int32Type⟩ (GoValue.goInt 7) (by decide)⟩

/-- A successful `readHeader` implies the region holds a full header, the
magic bytes read "MMV", and the two generation words are equal. -/
theorem readHeader_ok {data : List Nat} {h : Header} (hh : readHeader data = .ok h) :
    HeaderLength ≤ data.length ∧ h.magic.take 3 = mmvMagic ∧ h.g1 = h.g2 := by
  simp only [readHeader] at hh
  split_ifs at hh with h1 h2 h3
  injection hh with hh
  subst hh
  exact ⟨by omega, not_ne_iff.mp h2, not_ne_iff.mp h3⟩

/-- A successful `componentsResult` carries the header it was given. -/
theorem componentsResult_ok {h : Header} {tocs : List Toc} {s : Components}
    {r : DumpResult} (hcr : componentsResult h tocs s = .ok r) : r.header = h := by
  unfold componentsResult at hcr
  repeat' split at hcr
  all_goals first
    | exact (RRes.noConfusion hcr)
    | (injection hcr with hh; subst hh; rfl)

/-- A successful `DumpWith` returns the header `readHeader` produced. -/
theorem DumpWith_ok {data sched : List Nat} {r : DumpResult}
    (hd : DumpWith data sched = .ok r) : readHeader data = .ok r.header := by
  unfold DumpWith at hd
  cases hrh : readHeader data with
  | err e => simp [hrh] at hd
  | crash => simp [hrh] at hd
  | hang => simp [hrh] at hd
  | ok h =>
    simp only [hrh] at hd
    cases hts : readTocs data h.toc with
    | err e => simp [hts] at hd
    | crash => simp [hts] at hd
    | hang => simp [hts] at hd
    | ok tocs =>
      simp only [hts] at hd
      exact congrArg RRes.ok (componentsResult_ok hd).symm

/-- C1 (amended): whenever `Dump` succeeds — under any goroutine schedule —
the region holds at least a full header, the magic bytes are "MMV", and the
two generation words of the returned header are equal.  The version byte and
the nonzero-generation condition are not validated by the code. -/
theorem c1_dump_validates :
    ∀ (data sched : List Nat),
      (DumpWith data sched).isOk = true →
      HeaderLength ≤ data.length
      ∧ dumpMagic (DumpWith data sched) = some mmvMagic
      ∧ dumpG1 (DumpWith data sched) = dumpG2 (DumpWith data sched) := by
  intro data sched hok
  cases hd : DumpWith data sched with
  | err e => rw [hd] at hok; simp [RRes.isOk] at hok
  | crash => rw [hd] at hok; simp [RRes.isOk] at hok
  | hang => rw [hd] at hok; simp [RRes.isOk] at hok
  | ok r =>
    have hprops := readHeader_ok (DumpWith_ok hd)
    exact ⟨hprops.1, by simp [dumpMagic, hprops.2.1],
      by simp [dumpG1, dumpG2, hprops.2.2]⟩

/-- A 40-byte region with magic "MMV", version word 99, both generation words
zero, and an empty TOC. -/
def dBadVersion : List Nat := [77, 77, 86, 0, 99] ++ List.replicate 35 0

/-- C1 counterexample: `Dump` succeeds on a region whose version word is 99
(not a supported version) and whose generation words are both zero, so
success does not imply a supported version nor `G1 == G2 != 0`. -/
theorem c1_counterexample :
    (DumpWith dBadVersion []).isOk = true
  ∧ dumpVersion (DumpWith dBadVersion []) = some 99
  ∧ dumpG1 (DumpWith dBadVersion []) = some 0
  ∧ dumpG2 (DumpWith dBadVersion []) = some 0 := by decide

/-- A valid 40-byte region: magic "MMV", version 1, G1 = G2 = 1, empty TOC. -/
def dValid : List Nat :=
  [77, 77, 86, 49, 1, 0, 0, 0, 1, 0, 0, 0, 0, 0, 0, 0, 1] ++ List.replicate 23 0

/-- C1 witness: the amended claim evaluated on a concrete valid region. -/
theorem c1_dump_validates_witness :
    (DumpWith dValid []).isOk = true
  ∧ (HeaderLength ≤ dValid.length
     ∧ dumpMagic (DumpWith dValid []) = some mmvMagic
     ∧ dumpG1 (DumpWith dValid []) = dumpG2 (DumpWith dValid [])) :=
  ⟨by decide, c1_dump_validates dValid [] (by decide)⟩

/-- When `offset + stride` does not overflow `uint64`, a fixed-stride record
reader errs exactly when the record would extend past the region, and never
panics. -/
theorem readRecordAt_spec (stride : Nat) (msg : String) (data : List Nat)
    (offset : Nat) (hst : 0 < stride) (hov : offset + stride < U64) :
    ((readRecordAt stride msg data offset).isErr = true ↔
      data.length < offset + stride)
    ∧ readRecordAt stride msg data offset ≠ .crash := by
  unfold readRecordAt
  rw [Nat.mod_eq_of_lt hov]
  split_ifs with h1 h2
  · simp [RRes.isErr, h1]
  · simp [RRes.isErr, h1]
  · omega

/-- `readToc` analogue of `readRecordAt_spec`. -/
theorem readToc_spec (data : List Nat) (offset : Nat)
    (hov : offset + TocLength < U64) :
    ((readToc data offset).isErr = true ↔ data.length < offset + TocLength)
    ∧ readToc data offset ≠ .crash := by
  unfold readToc
  rw [Nat.mod_eq_of_lt hov]
  split_ifs with h1 h2
  · simp [RRes.isErr, h1]
  · simp [RRes.isErr, h1]
  · exfalso
    unfold TocLength at h1
    omega

/-- A section walk whose offsets never wrap `uint64` cannot panic. -/
theorem readRecords_no_crash (stride : Nat) (msg : String) (data : List Nat) :
    ∀ (count offset : Nat), 0 < stride → offset + count * stride < U64 →
      readRecords (readRecordAt stride msg) stride data offset count ≠ .crash := by
  intro count
  induction count with
  | zero => intro offset _ _; simp [readRecords]
  | succ n ih =>
    intro offset hst hov
    have hov1 : offset + stride < U64 := by
      have h1 : stride ≤ (n + 1) * stride := Nat.le_mul_of_pos_left _ (Nat.succ_pos n)
      omega
    have hr := readRecordAt_spec stride msg data offset hst hov1
    simp only [readRecords]
    cases hrr : readRecordAt stride msg data offset with
    | err e => simp
    | crash => exact absurd hrr hr.2
    | hang => simp
    | ok rec =>
      have hnext : (offset + stride) % U64 = offset + stride := Nat.mod_eq_of_lt hov1
      rw [hnext]
      have ihn := ih (offset + stride) hst (by
        have h2 : (n + 1) * stride = n * stride + stride := Nat.succ_mul n stride
        omega)
      cases hrec : readRecords (readRecordAt stride msg) stride data (offset + stride) n with
      | ok rest => simp
      | err e => simp
      | crash => exact absurd hrec ihn
      | hang => simp

/-- A slot holding a non-panicked walk is not crashed. -/
theorem slotCrashed_some {r : RRes RecList} (h : r ≠ .crash) :
    slotCrashed (some r) = false := by
  cases r with
  | ok a => rfl
  | err e => rfl
  | crash => exact absurd rfl h
  | hang => rfl

/-- A section read with a nonnegative `int32` count word (no `wg.Add` panic)
whose full extent stays below `2^64` cannot panic, for any of the five record
strides. -/
theorem sectionRead_no_crash (stride : Nat) (msg : String) (data : List Nat)
    (offset count : Nat) (hst : 0 < stride) (hsmall : stride ≤ 256)
    (hcnt : count < 2147483648) (hb : offset + count * 256 < U64) :
    (if 2147483648 ≤ count then RRes.crash
     else readRecords (readRecordAt stride msg) stride data offset count) ≠
      RRes.crash := by
  rw [if_neg (by omega)]
  apply readRecords_no_crash stride msg data count offset hst
  have h1 : count * stride ≤ count * 256 := Nat.mul_le_mul_left _ hsmall
  omega

/-- One `readComponents` goroutine preserves crash-freedom of the slots when
its TOC entry's count word is a nonnegative `int32` and its extent does not
overflow. -/
theorem anyCrash_applyToc (data : List Nat) (t : Toc) (s : Components)
    (hb : t.count < 2147483648 ∧ t.offset + t.count * 256 < U64)
    (hs : anyCrash s = false) : anyCrash (applyToc data s t) = false := by
  simp only [anyCrash, Bool.or_eq_false_iff] at hs
  obtain ⟨⟨⟨⟨hi, hd⟩, hm⟩, hv⟩, hstr⟩ := hs
  unfold applyToc
  split_ifs with h1 h2 h3 h4 h5 <;>
    simp only [anyCrash, Bool.or_eq_false_iff] <;>
    refine ⟨⟨⟨⟨?_, ?_⟩, ?_⟩, ?_⟩, ?_⟩ <;>
    first
      | assumption
      | exact slotCrashed_some
          (sectionRead_no_crash _ _ data t.offset t.count (by decide) (by decide)
            hb.1 hb.2)

/-- The sequential slot-assignment fold preserves crash-freedom when every
walked TOC entry's extent stays below `2^64`. -/
theorem anyCrash_foldl (data : List Nat) :
    ∀ (L : List Toc) (s : Components),
      (∀ t ∈ L, t.count < 2147483648 ∧ t.offset + t.count * 256 < U64) →
      anyCrash s = false → anyCrash (L.foldl (applyToc data) s) = false := by
  intro L
  induction L with
  | nil => intro s _ hs; exact hs
  | cons t L ih =>
    intro s hb hs
    exact ih (applyToc data s t) (fun u hu => hb u (List.mem_cons_of_mem t hu))
      (anyCrash_applyToc data t s (hb t (List.mem_cons_self t L)) hs)

/-- `componentsResult` cannot panic when no slot panicked. -/
theorem componentsResult_no_crash {h : Header} {tocs : List Toc} {s : Components}
    (hs : anyCrash s = false) : componentsResult h tocs s ≠ .crash := by
  unfold componentsResult
  rw [if_neg (by simp [hs])]
  split_ifs
  · repeat' split
    all_goals simp
  · simp

/-- C3 counterexample: at offset `2^64 - 16` over an empty region, the TOC
reader's `uint64` bound `offset + TocLength` wraps to 0, so the check passes
and `&data[offset]` panics — the reader neither errs nor avoids a panic even
though `offset + TocLength` exceeds the region length. -/
theorem c3_counterexample :
    readToc ([] : List Nat) 18446744073709551600 = RRes.crash
  ∧ List.length ([] : List Nat) < 18446744073709551600 + TocLength := by
  constructor
  · decide
  · decide

/-- C3 (amended): for offsets without `uint64` overflow (`offset + 256 < 2^64`
covers all six strides), every record reader errs exactly when the record
would extend past the region and never panics; and `Dump` — under any
schedule — never panics when its TOC walk succeeded (which requires a
nonnegative `int32` TOC count word) and every TOC entry has a nonnegative
`int32` count word and a full extent below `2^64`.  A negative count word
panics in `make`/`wg.Add`, and an unmatched section type deadlocks rather
than panics. -/
theorem c3_reader_bounds :
    ∀ (data : List Nat) (offset : Nat), offset + StringLength < U64 →
      (((readToc data offset).isErr = true ↔ data.length < offset + TocLength)
        ∧ readToc data offset ≠ .crash)
    ∧ (((readInstance data offset).isErr = true ↔ data.length < offset + InstanceLength)
        ∧ readInstance data offset ≠ .crash)
    ∧ (((readInstanceDomain data offset).isErr = true ↔
          data.length < offset + InstanceDomainLength)
        ∧ readInstanceDomain data offset ≠ .crash)
    ∧ (((readMetric data offset).isErr = true ↔ data.length < offset + MetricLength)
        ∧ readMetric data offset ≠ .crash)
    ∧ (((readValue data offset).isErr = true ↔ data.length < offset + ValueLength)
        ∧ readValue data offset ≠ .crash)
    ∧ (((readString data offset).isErr = true ↔ data.length < offset + StringLength)
        ∧ readString data offset ≠ .crash)
    ∧ (∀ (sched : List Nat) (h : Header) (tocs : List Toc),
        readHeader data = .ok h →
        readTocs data h.toc = .ok tocs →
        (∀ t ∈ tocs, t.count < 2147483648 ∧ t.offset + t.count * 256 < U64) →
        DumpWith data sched ≠ .crash) := by
  intro data offset hov
  have hsl : StringLength = 256 := rfl
  refine ⟨?_, ?_, ?_, ?_, ?_, ?_, ?_⟩
  · exact readToc_spec data offset (by unfold TocLength; unfold StringLength at hov; omega)
  · exact readRecordAt_spec _ _ data offset (by decide)
      (by unfold InstanceLength; unfold StringLength at hov; omega)
  · exact readRecordAt_spec _ _ data offset (by decide)
      (by unfold InstanceDomainLength; unfold StringLength at hov; omega)
  · exact readRecordAt_spec _ _ data offset (by decide)
      (by unfold MetricLength; unfold StringLength at hov; omega)
  · exact readRecordAt_spec _ _ data offset (by decide)
      (by unfold ValueLength; unfold StringLength at hov; omega)
  · exact readRecordAt_spec _ _ data offset (by decide) hov
  · intro sched h tocs hh ht hb
    unfold DumpWith
    simp only [hh, ht]
    apply componentsResult_no_crash
    apply anyCrash_foldl
    · intro t htm
      obtain ⟨i, _, hget⟩ := List.mem_filterMap.mp htm
      exact hb t (List.getElem?_mem hget)
    · rfl

/-- C3 witness: the reader bounds evaluated on the empty region at offset 0,
and crash-freedom of `Dump` on a concrete valid region. -/
theorem c3_reader_bounds_witness :
    (readToc ([] : List Nat) 0).isErr = true
  ∧ readString ([] : List Nat) 0 ≠ RRes.crash
  ∧ DumpWith dValid [] ≠ RRes.crash := by
  refine ⟨?_, ?_, ?_⟩
  · exact ((c3_reader_bounds [] 0 (by decide)).1.1).mpr (by decide)
  · exact (c3_reader_bounds [] 0 (by decide)).2.2.2.2.2.1.2
  · exact (c3_reader_bounds dValid 0 (by decide)).2.2.2.2.2.2 [] (parseHeader dValid) []
      (by decide) (by decide) (by simp)

/-- Looking up every index of a list in order recovers the list. -/
theorem filterMap_getElem_range {α : Type} (l : List α) :
    (List.range l.length).filterMap (fun i => l[i]?) = l := by
  induction l with
  | nil => rfl
  | cons a t ih =>
    rw [List.length_cons, List.range_succ_eq_map]
    simp only [List.filterMap_cons, List.getElem?_cons_zero, List.filterMap_map,
      Function.comp_def, List.getElem?_cons_succ]
    rw [ih]

/-- The `instances` slot after one goroutine's assignment. -/
theorem applyToc_instances (data : List Nat) (s : Components) (t : Toc) :
    (applyToc data s t).instances =
      if t.ty = TocInstances then
        some (readInstances data t.offset t.count)
      else s.instances := by
  unfold applyToc TocInstances TocIndoms TocMetrics TocValues TocStrings
  split_ifs with h1 h2 h3 h4 h5 <;> rfl

/-- The `indoms` slot after one goroutine's assignment. -/
theorem applyToc_indoms (data : List Nat) (s : Components) (t : Toc) :
    (applyToc data s t).indoms =
      if t.ty = TocIndoms then
        some (readInstanceDomains data t.offset t.count)
      else s.indoms := by
  unfold applyToc TocInstances TocIndoms TocMetrics TocValues TocStrings
  split_ifs with h1 h2 h3 h4 h5 <;> first | rfl | omega

/-- The `metrics` slot after one goroutine's assignment. -/
theorem applyToc_metrics (data : List Nat) (s : Components) (t : Toc) :
    (applyToc data s t).metrics =
      if t.ty = TocMetrics then
        some (readMetrics data t.offset t.count)
      else s.metrics := by
  unfold applyToc TocInstances TocIndoms TocMetrics TocValues TocStrings
  split_ifs with h1 h2 h3 h4 h5 <;> first | rfl | omega

/-- The `values` slot after one goroutine's assignment. -/
theorem applyToc_values (data : List Nat) (s : Components) (t : Toc) :
    (applyToc data s t).values =
      if t.ty = TocValues then
        some (readValues data t.offset t.count)
      else s.values := by
  unfold applyToc TocInstances TocIndoms TocMetrics TocValues TocStrings
  split_ifs with h1 h2 h3 h4 h5 <;> first | rfl | omega

/-- The `strings` slot after one goroutine's assignment. -/
theorem applyToc_strings (data : List Nat) (s : Components) (t : Toc) :
    (applyToc data s t).strings =
      if t.ty = TocStrings then
        some (readStrings data t.offset t.count)
      else s.strings := by
  unfold applyToc TocInstances TocIndoms TocMetrics TocValues TocStrings
  split_ifs with h1 h2 h3 h4 h5 <;> first | rfl | omega

/-- Two component states with equal slots are equal. -/
theorem Components.ext_of (c1 c2 : Components)
    (h1 : c1.metrics = c2.metrics) (h2 : c1.values = c2.values)
    (h3 : c1.instances = c2.instances) (h4 : c1.indoms = c2.indoms)
    (h5 : c1.strings = c2.strings) : c1 = c2 := by
  cases c1
  cases c2
  simp_all

/-- Goroutines for TOC entries of different section types assign different
slots, so their assignments commute. -/
theorem applyToc_comm (data : List Nat) {a b : Toc} (hab : a.ty ≠ b.ty)
    (s : Components) :
    applyToc data (applyToc data s a) b = applyToc data (applyToc data s b) a := by
  apply Components.ext_of
  · rw [applyToc_metrics, applyToc_metrics, applyToc_metrics, applyToc_metrics]
    unfold TocMetrics
    split_ifs <;> first | rfl | omega
  · rw [applyToc_values, applyToc_values, applyToc_values, applyToc_values]
    unfold TocValues
    split_ifs <;> first | rfl | omega
  · rw [applyToc_instances, applyToc_instances, applyToc_instances, applyToc_instances]
    unfold TocInstances
    split_ifs <;> first | rfl | omega
  · rw [applyToc_indoms, applyToc_indoms, applyToc_indoms, applyToc_indoms]
    unfold TocIndoms
    split_ifs <;> first | rfl | omega
  · rw [applyToc_strings, applyToc_strings, applyToc_strings, applyToc_strings]
    unfold TocStrings
    split_ifs <;> first | rfl | omega

/-- C8 counterexample: on a TOC list with two metrics entries, the schedule
that lands the first entry's assignment last produces a different result than
the sequential in-order decode, so the parallel decode is not always
equivalent to a sequential decode of the TOC entries in order. -/
theorem c8_counterexample :
    IsParallelOutcome [] [⟨3, 0, 0⟩, ⟨3, 1, 0⟩]
      (readComponentsWith [] [⟨3, 0, 0⟩, ⟨3, 1, 0⟩] [1, 0])
  ∧ readComponentsWith [] [⟨3, 0, 0⟩, ⟨3, 1, 0⟩] [1, 0] ≠
      readComponentsSeq [] [⟨3, 0, 0⟩, ⟨3, 1, 0⟩] := by
  constructor
  · exact ⟨[1, 0], by decide, rfl⟩
  · decide

/-- C8 (amended): when the TOC entries have pairwise-distinct section types —
as in every well-formed MMV file, where each section appears at most once —
and every entry's type is one of the five handled section types (on an
unmatched type the source's `readComponents` deadlocks in `wg.Wait` instead
of returning), every goroutine completion order produces exactly the slots of
the sequential in-order decode, and the observable outcome of the parallel
`readComponents` — the maps and errors, or the process panic — equals that of
a plain sequential decode of the TOC entries in order. -/
theorem c8_parallel_refines_seq :
    ∀ (data : List Nat) (tocs : List Toc) (sched : List Nat),
      tocs.Pairwise (fun a b => a.ty ≠ b.ty) →
      tocs.all tocHandled = true →
      sched.Perm (List.range tocs.length) →
      readComponentsWith data tocs sched = readComponentsSeq data tocs
      ∧ readComponentsResult data tocs sched = readComponentsSeqResult data tocs := by
  intro data tocs sched hpw hhandled hperm
  have hslots : readComponentsWith data tocs sched = readComponentsSeq data tocs := by
    unfold readComponentsWith readComponentsSeq
    have hfm : (sched.filterMap (fun i => tocs[i]?)).Perm tocs := by
      have h1 := hperm.filterMap (fun i => tocs[i]?)
      rwa [filterMap_getElem_range] at h1
    refine hfm.foldl_eq' ?_ initComponents
    intro x hx y hy z
    rcases em (x = y) with hxy | hxy
    · subst hxy
      rfl
    · have hsymm : Symmetric (fun a b : Toc => a.ty ≠ b.ty) :=
        fun u v huv => Ne.symm huv
      have hty : x.ty ≠ y.ty :=
        hpw.forall hsymm (hfm.mem_iff.mp hx) (hfm.mem_iff.mp hy) hxy
      exact applyToc_comm data hty z
  refine ⟨hslots, ?_⟩
  unfold readComponentsResult readComponentsSeqResult
  rw [hslots]
  simp [hhandled]

/-- C8 witness: the amended claim on a concrete single-entry TOC list and the
identity schedule. -/
theorem c8_parallel_refines_seq_witness :
    ([⟨3, 0, 0⟩] : List Toc).Pairwise (fun a b => a.ty ≠ b.ty)
  ∧ ([⟨3, 0, 0⟩] : List Toc).all tocHandled = true
  ∧ ([0] : List Nat).Perm (List.range 1)
  ∧ (readComponentsWith [] [⟨3, 0, 0⟩] [0] = readComponentsSeq [] [⟨3, 0, 0⟩]
     ∧ readComponentsResult [] [⟨3, 0, 0⟩] [0] = readComponentsSeqResult [] [⟨3, 0, 0⟩]) :=
  ⟨by simp, by decide, by decide,
   c8_parallel_refines_seq [] [⟨3, 0, 0⟩] [0] (by simp) (by decide) (by decide)⟩
